import Mathlib

/-!
Verification of the Tenant Risk Scoring service (`model/app/main.py`).

The service has two routes and a startup loader:
* `lifespan` — at startup, if the artifact file exists it is deserialized
  into `app.state.model`, otherwise `app.state.model` is set to `None`.
* `GET /` (`health_check`) — reports `status: Online` and whether
  `app.state.model is not None`.
* `POST /predict/score` (`predict_risk_score`) — 503 when
  `not app.state.model`; fast path for a perfect record; otherwise invokes
  `predict_proba`, takes `probs[0][1]`, truncates `p * 100` to an integer
  and categorizes it.

Real-valued probabilities are embedded as rationals (exact arithmetic);
Python `int()` on a non-negative value is truncation toward zero.
Exceptions raised by the artifact or by indexing are embedded as
`Except String`.
-/

/-- The request body of `POST /predict/score` (`TenantScoreRequest`):
two integer fields `missedPeriods` and `totalDisputes`. -/
structure TenantScoreRequest where
  missedPeriods : Int
  totalDisputes : Int
deriving DecidableEq, Repr

/-- The single-row feature dict built by the handler:
keys `missedPeriods`, `totalDisputes`, in that order. -/
structure Features where
  missedPeriods : Int
  totalDisputes : Int
deriving DecidableEq, Repr

/-- The deserialized model artifact held in `app.state.model`.
`truthy` is the Python truthiness of the object (the handler tests
`not app.state.model`, i.e. truthiness, not `is None`).
`predict_proba` returns, per row, a list of class probabilities;
a raised exception is `Except.error` with the exception text. -/
structure Artifact where
  truthy : Bool
  predict_proba : Features → Except String (List (List ℚ))

/-- Process-wide application state: `app.state.model`, either a loaded
artifact or `None`. -/
structure AppState where
  model : Option Artifact

/-- An HTTP response of the scoring route: either the JSON success body
(trust_score, risk_category, recommendation) or an `HTTPException`
with a status code and a detail message. -/
inductive Response where
  | ok (trust_score : Int) (risk_category : String) (recommendation : String)
  | error (status : Nat) (detail : String)
deriving DecidableEq, Repr

/-- Python `int()` applied to a real value: truncation toward zero. -/
def pyInt (q : ℚ) : Int :=
  if 0 ≤ q then ⌊q⌋ else ⌈q⌉

/-- `probs[0][1]`: index row 0 of the probability matrix, then entry 1
(the "good" class).  An out-of-bounds index raises in Python; that is
embedded as `Except.error`. -/
def rowProb (probs : List (List ℚ)) : Except String ℚ :=
  match probs with
  | [] => Except.error "index 0 is out of bounds for axis 0"
  | row :: _ =>
    match row[1]? with
    | none => Except.error "index 1 is out of bounds for axis 0"
    | some p => Except.ok p

/-- The `POST /predict/score` handler `predict_risk_score` of
`model/app/main.py`, line by line:
1. `if not app.state.model:` raise 503;
2. fast path for `missedPeriods == 0 and totalDisputes == 0`;
3. otherwise build the feature row, call `predict_proba`, take
   `probs[0][1]`, truncate `p * 100` with `int()` and categorize;
   any exception in the try block becomes a 500 whose detail is
   `"Prediction Error: "` followed by the exception text. -/
def predict_risk_score (st : AppState) (data : TenantScoreRequest) : Response :=
  match st.model with
  | none => Response.error 503 "AI Model is not loaded on server."
  | some a =>
    if a.truthy = false then
      Response.error 503 "AI Model is not loaded on server."
    else if data.missedPeriods = 0 ∧ data.totalDisputes = 0 then
      Response.ok 100 "Safe" "Approve"
    else
      let features : Features :=
        { missedPeriods := data.missedPeriods, totalDisputes := data.totalDisputes }
      match Except.bind (a.predict_proba features) rowProb with
      | Except.error e => Response.error 500 ("Prediction Error: " ++ e)
      | Except.ok trust_probability =>
        let final_score := pyInt (trust_probability * 100)
        if final_score > 75 then
          Response.ok final_score "Safe" "Approve"
        else if final_score < 40 then
          Response.ok final_score "Risky" "Review Manually"
        else
          Response.ok final_score "Moderate" "Review Manually"

/-- The response body of `GET /`. -/
structure HealthResponse where
  status : String
  model_loaded : Bool
deriving DecidableEq, Repr

/-- The `GET /` handler `health_check`: always succeeds and reports
whether `app.state.model is not None`. -/
def health_check (st : AppState) : HealthResponse :=
  { status := "Online", model_loaded := st.model.isSome }

/-- Outcome of the startup portion of `lifespan`: either the process
starts with `app.state.model` set, or an uncaught exception escapes
startup. -/
inductive LoadOutcome where
  | started (model : Option Artifact)
  | crashed (e : String)

/-- The startup portion of `lifespan` in `model/app/main.py`:
if `os.path.exists(MODEL_PATH)` then `app.state.model = joblib.load(...)`
(not wrapped in try/except, so a deserialization failure escapes),
else `app.state.model = None` with a diagnostic printed.
`fileExists` embeds the `os.path.exists` test and `joblib_load` the
result of deserialization (`Except.error` for a raised exception). -/
def lifespan_startup (fileExists : Bool) (joblib_load : Except String Artifact) :
    LoadOutcome :=
  if fileExists then
    match joblib_load with
    | Except.ok m => LoadOutcome.started (some m)
    | Except.error e => LoadOutcome.crashed e
  else
    LoadOutcome.started none

/-- One handler call as a state transformer: the handler reads
`app.state` and never writes it (no assignment to `app.state` occurs in
`predict_risk_score`), so the state component is returned unchanged. -/
def handler_step (st : AppState) (data : TenantScoreRequest) :
    Response × AppState :=
  (predict_risk_score st data, st)

/-- An artifact that is truthy and predicts the probability pair
`(1 - p, p)` for every input row (class 1, "good", has probability `p`). -/
def mkArtifact (p : ℚ) : Artifact :=
  { truthy := true, predict_proba := fun _ => Except.ok [[1 - p, p]] }

/-- App state holding `mkArtifact p`. -/
def stOf (p : ℚ) : AppState :=
  { model := some (mkArtifact p) }

/-- A loaded (not `None`) artifact that is nevertheless Python-falsy. -/
def falsyArtifact : Artifact :=
  { truthy := false, predict_proba := fun _ => Except.ok [[0, 1]] }

/-- The request with one missed period and no dispute. -/
def oneZero : TenantScoreRequest := { missedPeriods := 1, totalDisputes := 0 }

/-- The perfect-record request. -/
def zeroZero : TenantScoreRequest := { missedPeriods := 0, totalDisputes := 0 }

/-- An artifact whose prediction operation raises on every input. -/
def raisingArtifact : Artifact :=
  { truthy := true, predict_proba := fun _ => Except.error "X has 2 features" }

/-- Truncation agrees with the floor on non-negative values. -/
theorem pyInt_eq_floor (q : ℚ) (h : 0 ≤ q) : pyInt q = ⌊q⌋ := by
  simp [pyInt, h]

/-- Unfolding of the handler on the model path when the probability
lookup succeeds. -/
theorem predict_model_path_ok (st : AppState) (a : Artifact)
    (data : TenantScoreRequest) (p : ℚ)
    (hm : st.model = some a) (ht : a.truthy = true)
    (hz : ¬(data.missedPeriods = 0 ∧ data.totalDisputes = 0))
    (hb : Except.bind
        (a.predict_proba
          { missedPeriods := data.missedPeriods, totalDisputes := data.totalDisputes })
        rowProb = Except.ok p) :
    predict_risk_score st data =
      (if 75 < pyInt (p * 100) then
        Response.ok (pyInt (p * 100)) "Safe" "Approve"
      else if pyInt (p * 100) < 40 then
        Response.ok (pyInt (p * 100)) "Risky" "Review Manually"
      else
        Response.ok (pyInt (p * 100)) "Moderate" "Review Manually") := by
  obtain ⟨m⟩ := st
  have hm' : m = some a := hm
  subst hm'
  simp only [predict_risk_score, ht, hz, hb]
  simp

/-- Unfolding of the handler on the model path when the probability
lookup raises. -/
theorem predict_model_path_error (st : AppState) (a : Artifact)
    (data : TenantScoreRequest) (e : String)
    (hm : st.model = some a) (ht : a.truthy = true)
    (hz : ¬(data.missedPeriods = 0 ∧ data.totalDisputes = 0))
    (hb : Except.bind
        (a.predict_proba
          { missedPeriods := data.missedPeriods, totalDisputes := data.totalDisputes })
        rowProb = Except.error e) :
    predict_risk_score st data = Response.error 500 ("Prediction Error: " ++ e) := by
  obtain ⟨m⟩ := st
  have hm' : m = some a := hm
  subst hm'
  simp only [predict_risk_score, ht, hz, hb]
  simp

/-- Evaluation of the handler on a `mkArtifact p` state for a request
that does not take the fast path. -/
theorem predict_stOf_eval (p : ℚ) (d : TenantScoreRequest)
    (hd : ¬(d.missedPeriods = 0 ∧ d.totalDisputes = 0)) :
    predict_risk_score (stOf p) d =
      (if 75 < pyInt (p * 100) then
        Response.ok (pyInt (p * 100)) "Safe" "Approve"
      else if pyInt (p * 100) < 40 then
        Response.ok (pyInt (p * 100)) "Risky" "Review Manually"
      else
        Response.ok (pyInt (p * 100)) "Moderate" "Review Manually") := by
  apply predict_model_path_ok (stOf p) (mkArtifact p) d p rfl rfl hd rfl

/-- Claim C3 counterexample: a loaded (not `None`) but Python-falsy
artifact makes the zero/zero request return the 503 error instead of the
fast-path approval, because the handler tests truthiness. -/
theorem c3_fast_path_counterexample :
    predict_risk_score { model := some falsyArtifact } zeroZero =
      Response.error 503 "AI Model is not loaded on server." ∧
    predict_risk_score { model := some falsyArtifact } zeroZero ≠
      Response.ok 100 "Safe" "Approve" :=
  ⟨rfl, fun h => Response.noConfusion h⟩

/-- Claim C3 (amended): for every request with `missedPeriods == 0` and
`totalDisputes == 0`, when the model handle is loaded AND the artifact is
Python-truthy, the handler returns exactly trust_score 100, Safe, Approve,
and the result does not depend on the artifact's prediction operation
(it holds for every `predict_proba`, so the artifact is not consulted). -/
theorem c3_fast_path :
    ∀ (st : AppState) (a : Artifact) (data : TenantScoreRequest),
      st.model = some a → a.truthy = true →
      data.missedPeriods = 0 → data.totalDisputes = 0 →
      predict_risk_score st data = Response.ok 100 "Safe" "Approve" ∧
      (∀ f : Features → Except String (List (List ℚ)),
        predict_risk_score { model := some { truthy := true, predict_proba := f } }
          data = Response.ok 100 "Safe" "Approve") := by
  intro st a data hm ht h1 h2
  obtain ⟨m⟩ := st
  have hm' : m = some a := hm
  subst hm'
  constructor
  · simp [predict_risk_score, ht, h1, h2]
  · intro f
    simp [predict_risk_score, h1, h2]

/-- Claim C3 witness: on the zero/zero request with a truthy loaded
artifact the fast-path response is returned, even for an artifact whose
prediction operation raises on every input. -/
theorem c3_fast_path_witness :
    predict_risk_score (stOf (1/2)) zeroZero = Response.ok 100 "Safe" "Approve" ∧
    predict_risk_score
        { model := some { truthy := true, predict_proba := fun _ => Except.error "boom" } }
        zeroZero = Response.ok 100 "Safe" "Approve" :=
  ⟨(c3_fast_path (stOf (1/2)) (mkArtifact (1/2)) zeroZero rfl rfl rfl rfl).1,
   (c3_fast_path (stOf (1/2)) (mkArtifact (1/2)) zeroZero rfl rfl rfl rfl).2
     (fun _ => Except.error "boom")⟩

/-- Claim C4: when the model handle is `None`, every request — including
the zero/zero one — gets the 503 error; the unavailability check precedes
the fast path. -/
theorem c4_unavailable_precedes_fast_path :
    ∀ (st : AppState) (data : TenantScoreRequest),
      st.model = none →
      predict_risk_score st data =
        Response.error 503 "AI Model is not loaded on server." := by
  intro st data hm
  obtain ⟨m⟩ := st
  have hm' : m = none := hm
  subst hm'
  rfl

/-- Claim C4 witness: the zero/zero request still yields the 503 error
when the model handle is `None`. -/
theorem c4_unavailable_precedes_fast_path_witness :
    predict_risk_score { model := none } zeroZero =
      Response.error 503 "AI Model is not loaded on server." :=
  c4_unavailable_precedes_fast_path { model := none } zeroZero rfl

/-- Claim C5 counterexample: when the artifact file exists but
deserialization raises, the exception escapes startup (the `joblib.load`
call is not guarded), so the claim that every such failure is converted
into the unavailable marker is false. -/
theorem c5_load_counterexample :
    lifespan_startup true (Except.error "invalid load key") =
      LoadOutcome.crashed "invalid load key" ∧
    lifespan_startup true (Except.error "invalid load key") ≠
      LoadOutcome.started none :=
  ⟨rfl, fun h => LoadOutcome.noConfusion h⟩

/-- Claim C5 (amended): a missing artifact file is handled without an
exception — the handle is set to `None` and startup proceeds — and a
successful deserialization stores the artifact; but a deserialization
failure on an existing file is NOT caught and escapes, crashing startup. -/
theorem c5_load_amended :
    (∀ load : Except String Artifact,
      lifespan_startup false load = LoadOutcome.started none) ∧
    (∀ a : Artifact,
      lifespan_startup true (Except.ok a) = LoadOutcome.started (some a)) ∧
    (∀ e : String,
      lifespan_startup true (Except.error e) = LoadOutcome.crashed e) :=
  ⟨fun _ => rfl, fun _ => rfl, fun _ => rfl⟩

/-- Claim C8: for a loaded-but-falsy artifact object, the scoring route
returns the 503 unavailable error while the health route simultaneously
reports `model_loaded: true` — the two availability views disagree,
because the handler tests truthiness rather than `is not None`. -/
theorem c8_truthiness_mismatch :
    predict_risk_score { model := some falsyArtifact } oneZero =
      Response.error 503 "AI Model is not loaded on server." ∧
    health_check { model := some falsyArtifact } =
      { status := "Online", model_loaded := true } :=
  ⟨rfl, rfl⟩

/-- Claim C9: `GET /` always returns exactly status Online together with
`model_loaded = (app.state.model is not None)`; in particular, after a
startup in which the artifact file was absent, it reports
`model_loaded: false`. -/
theorem c9_health_check_reports_loader :
    (∀ m : Option Artifact,
      health_check { model := m } =
        { status := "Online", model_loaded := m.isSome }) ∧
    (∀ (load : Except String Artifact) (m : Option Artifact),
      lifespan_startup false load = LoadOutcome.started m →
      health_check { model := m } = { status := "Online", model_loaded := false }) := by
  constructor
  · intro m; rfl
  · intro load m h
    have hm : (none : Option Artifact) = m := by
      injection h
    subst hm
    rfl

/-- Claim C9 witness: with the artifact file absent at startup the health
route reports Online and `model_loaded: false`. -/
theorem c9_health_check_reports_loader_witness :
    health_check { model := none } = { status := "Online", model_loaded := false } :=
  c9_health_check_reports_loader.2 (Except.error "file absent") none rfl

/-- Claim C10: the handler is deterministic and mutation-free — a call
leaves the shared application state unchanged, and a second call with the
identical request against the resulting state returns the identical
response. -/
theorem c10_deterministic_no_mutation :
    ∀ (st : AppState) (data : TenantScoreRequest),
      (handler_step st data).2 = st ∧
      (handler_step ((handler_step st data).2) data).1 = (handler_step st data).1 :=
  fun _ _ => ⟨rfl, rfl⟩

/-- Claim C1: on the model path (loaded truthy model, not both inputs
zero, probability lookup succeeds), the returned pair follows the
categorization table exactly: score above 75 is Safe/Approve, score below
40 is Risky/Review Manually, scores from 40 to 75 are Moderate/Review
Manually; at the boundaries, scores 75 and 40 yield Moderate/Review
Manually, 76 yields Safe/Approve and 39 yields Risky/Review Manually. -/
theorem c1_categorization_table :
    (∀ (st : AppState) (a : Artifact) (data : TenantScoreRequest) (p : ℚ)
        (s : Int) (c r : String),
      st.model = some a → a.truthy = true →
      ¬(data.missedPeriods = 0 ∧ data.totalDisputes = 0) →
      Except.bind
          (a.predict_proba
            { missedPeriods := data.missedPeriods, totalDisputes := data.totalDisputes })
          rowProb = Except.ok p →
      predict_risk_score st data = Response.ok s c r →
      (s = pyInt (p * 100) ∧
       (75 < s → c = "Safe" ∧ r = "Approve") ∧
       (s < 40 → c = "Risky" ∧ r = "Review Manually") ∧
       (40 ≤ s → s ≤ 75 → c = "Moderate" ∧ r = "Review Manually"))) ∧
    predict_risk_score (stOf (75/100)) oneZero =
      Response.ok 75 "Moderate" "Review Manually" ∧
    predict_risk_score (stOf (76/100)) oneZero =
      Response.ok 76 "Safe" "Approve" ∧
    predict_risk_score (stOf (40/100)) oneZero =
      Response.ok 40 "Moderate" "Review Manually" ∧
    predict_risk_score (stOf (39/100)) oneZero =
      Response.ok 39 "Risky" "Review Manually" := by
  refine ⟨?_, ?_, ?_, ?_, ?_⟩
  · intro st a data p s c r hm ht hz hb hr
    rw [predict_model_path_ok st a data p hm ht hz hb] at hr
    split_ifs at hr with h1 h2 <;>
      simp only [Response.ok.injEq] at hr <;>
      obtain ⟨rfl, rfl, rfl⟩ := hr
    · exact ⟨rfl, fun _ => ⟨rfl, rfl⟩, fun h => absurd h (by omega),
        fun h h' => absurd h' (by omega)⟩
    · exact ⟨rfl, fun h => absurd h (by omega), fun _ => ⟨rfl, rfl⟩,
        fun h h' => absurd h (by omega)⟩
    · exact ⟨rfl, fun h => absurd h (by omega), fun h => absurd h (by omega),
        fun _ _ => ⟨rfl, rfl⟩⟩
  · rw [predict_stOf_eval _ _ (by decide)]; norm_num [pyInt]
  · rw [predict_stOf_eval _ _ (by decide)]; norm_num [pyInt]
  · rw [predict_stOf_eval _ _ (by decide)]; norm_num [pyInt]
  · rw [predict_stOf_eval _ _ (by decide)]; norm_num [pyInt]

/-- Claim C1 witness: with a loaded truthy artifact predicting
probability one half for the good class, the score 50 falls in the
Moderate band and the table conclusions hold for it. -/
theorem c1_categorization_table_witness :
    (50 : Int) = pyInt ((1/2 : ℚ) * 100) ∧
    (75 < (50 : Int) → ("Moderate" : String) = "Safe" ∧
      ("Review Manually" : String) = "Approve") ∧
    ((50 : Int) < 40 → ("Moderate" : String) = "Risky" ∧
      ("Review Manually" : String) = "Review Manually") ∧
    (40 ≤ (50 : Int) → (50 : Int) ≤ 75 → ("Moderate" : String) = "Moderate" ∧
      ("Review Manually" : String) = "Review Manually") :=
  c1_categorization_table.1 (stOf (1/2)) (mkArtifact (1/2)) oneZero (1/2)
    50 "Moderate" "Review Manually" rfl rfl (by decide) rfl
    (by rw [predict_stOf_eval _ _ (by decide)]; norm_num [pyInt])

/-- The trust score carried by a successful response, if any. -/
def trust_score_of : Response → Option Int
  | Response.ok s _ _ => some s
  | Response.error _ _ => none

/-- Claim C2: the handler takes the second entry of the artifact's
probability row (prob_good) as the trust probability, and the score is
`int(trust_probability * 100)`, which on the interval from 0 to 1 is the
floor of the product (truncation toward zero coincides with the floor on
non-negative values). -/
theorem c2_score_is_floor_of_prob_good :
    (∀ q : ℚ, 0 ≤ q → q ≤ 1 → pyInt (q * 100) = ⌊q * 100⌋) ∧
    (∀ (st : AppState) (a : Artifact) (data : TenantScoreRequest) (pb pg : ℚ),
      st.model = some a → a.truthy = true →
      ¬(data.missedPeriods = 0 ∧ data.totalDisputes = 0) →
      a.predict_proba
          { missedPeriods := data.missedPeriods, totalDisputes := data.totalDisputes }
        = Except.ok [[pb, pg]] →
      0 ≤ pg → pg ≤ 1 →
      trust_score_of (predict_risk_score st data) = some ⌊pg * 100⌋) := by
  constructor
  · intro q h0 _h1
    exact pyInt_eq_floor _ (mul_nonneg h0 (by norm_num))
  · intro st a data pb pg hm ht hz hp h0 h1
    have hb : Except.bind
        (a.predict_proba
          { missedPeriods := data.missedPeriods, totalDisputes := data.totalDisputes })
        rowProb = Except.ok pg := by
      rw [hp]; rfl
    rw [predict_model_path_ok st a data pg hm ht hz hb,
      pyInt_eq_floor _ (mul_nonneg h0 (by norm_num))]
    split_ifs <;> rfl

/-- Claim C2 witness: with prob_good one half, truncation equals the
floor and the returned trust score is the floor of fifty. -/
theorem c2_score_is_floor_of_prob_good_witness :
    pyInt ((1/2 : ℚ) * 100) = ⌊(1/2 : ℚ) * 100⌋ ∧
    trust_score_of (predict_risk_score (stOf (1/2)) oneZero) =
      some ⌊(1/2 : ℚ) * 100⌋ :=
  ⟨c2_score_is_floor_of_prob_good.1 (1/2) (by norm_num) (by norm_num),
   c2_score_is_floor_of_prob_good.2 (stOf (1/2)) (mkArtifact (1/2)) oneZero
     (1 - 1/2) (1/2) rfl rfl (by decide) rfl (by norm_num) (by norm_num)⟩

/-- Claim C7: on the model path, an exception raised during artifact
invocation or probability indexing is caught at the handler boundary and
surfaced as a 500 whose detail is the prefix "Prediction Error: "
followed by the underlying failure text. -/
theorem c7_prediction_failure_is_500 :
    ∀ (st : AppState) (a : Artifact) (data : TenantScoreRequest) (e : String),
      st.model = some a → a.truthy = true →
      ¬(data.missedPeriods = 0 ∧ data.totalDisputes = 0) →
      Except.bind
          (a.predict_proba
            { missedPeriods := data.missedPeriods, totalDisputes := data.totalDisputes })
          rowProb = Except.error e →
      predict_risk_score st data =
        Response.error 500 ("Prediction Error: " ++ e) :=
  fun st a data e hm ht hz hb =>
    predict_model_path_error st a data e hm ht hz hb

/-- Claim C7 witness: an artifact that raises on inference yields the 500
with the underlying message appended to the prefix. -/
theorem c7_prediction_failure_is_500_witness :
    predict_risk_score { model := some raisingArtifact } oneZero =
      Response.error 500 ("Prediction Error: " ++ "X has 2 features") :=
  c7_prediction_failure_is_500 { model := some raisingArtifact } raisingArtifact
    oneZero "X has 2 features" rfl rfl (by decide) rfl

/-- Claim C6: assuming every per-row probability the artifact can return
for this request lies between 0 and 1, every successful response of the
handler (fast path or model path) carries a trust score in the closed
interval from 0 to 100. -/
theorem c6_trust_score_in_range :
    ∀ (st : AppState) (data : TenantScoreRequest) (s : Int) (c r : String),
      (∀ a : Artifact, st.model = some a →
        ∀ probs, a.predict_proba
            { missedPeriods := data.missedPeriods, totalDisputes := data.totalDisputes }
          = Except.ok probs →
        ∀ row ∈ probs, ∀ q ∈ row, 0 ≤ q ∧ q ≤ 1) →
      predict_risk_score st data = Response.ok s c r →
      0 ≤ s ∧ s ≤ 100 := by
  intro st data s c r hbound hr
  obtain ⟨m⟩ := st
  cases m with
  | none =>
    simp [predict_risk_score] at hr
  | some a =>
    by_cases ht : a.truthy = true
    · by_cases hz : data.missedPeriods = 0 ∧ data.totalDisputes = 0
      · simp [predict_risk_score, ht, hz.1, hz.2, Response.ok.injEq] at hr
        omega
      · cases hp : a.predict_proba
            { missedPeriods := data.missedPeriods, totalDisputes := data.totalDisputes } with
        | error e =>
          rw [predict_model_path_error { model := some a } a data e rfl ht hz
            (by rw [hp]; rfl)] at hr
          exact Response.noConfusion hr
        | ok probs =>
          cases probs with
          | nil =>
            rw [predict_model_path_error { model := some a } a data
              "index 0 is out of bounds for axis 0" rfl ht hz (by rw [hp]; rfl)] at hr
            exact Response.noConfusion hr
          | cons row rest =>
            cases hq : row[1]? with
            | none =>
              rw [predict_model_path_error { model := some a } a data
                "index 1 is out of bounds for axis 0" rfl ht hz
                (by rw [hp]; simp [Except.bind, rowProb, hq])] at hr
              exact Response.noConfusion hr
            | some p =>
              have hpq : 0 ≤ p ∧ p ≤ 1 :=
                hbound a rfl (row :: rest) hp row (List.mem_cons_self row rest)
                  p (List.getElem?_mem hq)
              have hb : Except.bind
                  (a.predict_proba
                    { missedPeriods := data.missedPeriods,
                      totalDisputes := data.totalDisputes })
                  rowProb = Except.ok p := by
                rw [hp]; simp [Except.bind, rowProb, hq]
              rw [predict_model_path_ok { model := some a } a data p rfl ht hz hb,
                pyInt_eq_floor _ (mul_nonneg hpq.1 (by norm_num))] at hr
              have hlow : 0 ≤ ⌊p * 100⌋ := by
                rw [Int.le_floor]
                push_cast
                nlinarith [hpq.1]
              have hhigh : ⌊p * 100⌋ ≤ 100 := by
                have h100 : ⌊p * 100⌋ ≤ ⌊(100 : ℚ)⌋ :=
                  Int.floor_le_floor (by nlinarith [hpq.2])
                have : ⌊(100 : ℚ)⌋ = 100 := by norm_num
                omega
              split_ifs at hr <;>
                simp only [Response.ok.injEq] at hr <;> omega
    · have ht' : a.truthy = false := by
        revert ht; cases a.truthy <;> simp
      simp [predict_risk_score, ht'] at hr

/-- Claim C6 witness: the bound holds at the concrete state predicting
probability one half, where the returned score is 50. -/
theorem c6_trust_score_in_range_witness :
    (0 : Int) ≤ 50 ∧ (50 : Int) ≤ 100 :=
  c6_trust_score_in_range (stOf (1/2)) oneZero 50 "Moderate" "Review Manually"
    (by
      intro a ha probs hp row hrow q hq
      have ha' : mkArtifact (1/2) = a := by
        simpa [stOf] using ha
      subst ha'
      have hp' : [[1 - (1/2 : ℚ), 1/2]] = probs := by
        simpa [mkArtifact] using hp
      subst hp'
      simp only [List.mem_singleton] at hrow
      subst hrow
      simp only [List.mem_cons, List.mem_singleton, List.not_mem_nil, or_false] at hq
      rcases hq with rfl | rfl <;> constructor <;> norm_num)
    (by rw [predict_stOf_eval _ _ (by decide)]; norm_num [pyInt])
